import Mathlib

/-!
# k3sVcluster: the session orchestrator of `k3s-backend/server.js`

A shallow embedding of the backend's session handling: the session registry
(`sessions`), the container runtime as seen through the calls the server makes
(`createContainer`, `start`, `stop`, `remove`, `exec`), the generated files
(`generateKubeConfig`, `generateLensConfig`), the WebSocket connection handler with its
`try`/`catch`, the `close` listener it registers, and the HTTP route
`/get-kubeconfig/:sessionId`.

Modelling conventions.

* A computation is a function from a state to a result and a state.  The result is
  `Except String α`: `.error m` is a thrown `Error` whose `message` is `m`.  The state
  returned with an error is the state at the throw: effects made before it persist.
* Whether a call to the container runtime, to the port probe or to `fs.writeFileSync`
  succeeds is not decided by the server; each such call takes its outcome as an
  argument (`SetupOutcomes`, `TeardownOutcomes`).  `setTimeout`, `fs.existsSync`,
  `fs.unlinkSync` on an existing file, `ws.send`, `ws.close` and the map operations do
  not fail.
* A container handle is represented by the container's name, a port by a natural
  number, `Date.now()` by a natural number and `Math.floor(Math.random() * 10000)` by
  a number below 10000.
* `history` is a ghost trace of the effects that succeeded; the server does not read it.
-/

namespace K3sVcluster

/-! ## Data model -/

/-- The record stored by `sessions.set` (server.js 175-182). -/
structure Session where
  k3sContainer : String
  lensContainer : String
  kubeconfigPath : String
  lensConfigPath : String
  lensPort : Nat
  k3sPort : Nat
deriving DecidableEq

/-- An effect on the container runtime or on the file system that succeeded. -/
inductive Event where
  | created (name : String)
  | started (name : String)
  | stopped (name : String)
  | removed (name : String)
  | written (path : String)
  | unlinked (path : String)
deriving DecidableEq

/-- A container as the runtime holds it: whether it is running and the host port its
`PortBindings` publish. -/
structure Container where
  running : Bool
  hostPort : Nat
deriving DecidableEq

/-- The process-wide state: the `sessions` map, the containers known to the runtime (by
name), the files on disk (path to content) and the ghost trace. -/
structure World where
  sessions : String → Option Session
  containers : String → Option Container
  files : String → Option String
  history : List Event

/-- A message given to `ws.send`, before `JSON.stringify`. -/
inductive Msg where
  | lens (url : String)
  | output (data : String)
  | error (message : String)
deriving DecidableEq

/-- One WebSocket connection as the server sees it: what was sent, whether `ws.close()`
was called, the session id captured by the registered `close` listener (if any), and
whether the `data`/`message` relay listeners are registered. -/
structure Socket where
  sent : List Msg
  closed : Bool
  closeListener : Option String
  relaying : Bool
deriving DecidableEq

/-- The state a connection handler runs on. -/
structure Run where
  world : World
  ws : Socket

/-- The process environment: `process.env.INSTANCE_IP` (`none` when the variable is not
set) and `__dirname`. -/
structure Env where
  INSTANCE_IP : Option String
  dirname : String

/-- Outcomes of the fallible calls of the connection handler, in source order. -/
structure SetupOutcomes where
  k3sPort : Except String Nat
  k3sCreate : Except String Unit
  k3sStart : Except String Unit
  kubeconfigWrite : Except String Unit
  lensConfigWrite : Except String Unit
  lensPort : Except String Nat
  lensCreate : Except String Unit
  lensStart : Except String Unit
  exec : Except String Unit
  execStart : Except String Unit

/-- Outcomes of the four container calls of the `close` listener. -/
structure TeardownOutcomes where
  k3sStop : Except String Unit
  k3sRemove : Except String Unit
  lensStop : Except String Unit
  lensRemove : Except String Unit

/-- Point update of a map. -/
def setKey {β : Type} (m : String → Option β) (k : String) (v : Option β) :
    String → Option β :=
  fun x => if x = k then v else m x

def World.empty : World :=
  { sessions := fun _ => none, containers := fun _ => none, files := fun _ => none,
    history := [] }

def Socket.fresh : Socket :=
  { sent := [], closed := false, closeListener := none, relaying := false }

/-! ## Computations -/

/-- A JavaScript computation over a state `σ`. -/
def Js (σ α : Type) : Type := σ → Except String α × σ

namespace Js

def pure {σ α : Type} (a : α) : Js σ α := fun s => (.ok a, s)

def bind {σ α β : Type} (m : Js σ α) (f : α → Js σ β) : Js σ β :=
  fun s =>
    match m s with
    | (.ok a, s1) => f a s1
    | (.error e, s1) => (.error e, s1)

def throw {σ α : Type} (e : String) : Js σ α := fun s => (.error e, s)

/-- The statement `try body catch (e) handler`. -/
def tryCatch {σ α : Type} (body : Js σ α) (handler : String → Js σ α) : Js σ α :=
  fun s =>
    match body s with
    | (.ok a, s1) => (.ok a, s1)
    | (.error e, s1) => handler e s1

end Js

instance (σ : Type) : Monad (Js σ) where
  pure := Js.pure
  bind := Js.bind

instance (σ : Type) : MonadExcept String (Js σ) where
  throw := Js.throw
  tryCatch := Js.tryCatch

/-- Run a computation on the process-wide state inside a connection handler. -/
def onWorld {α : Type} (m : Js World α) : Js Run α :=
  fun r => ((m r.world).1, { r with world := (m r.world).2 })

/-! ## Leaf operations -/

/-- The function `getFreePort` (server.js 23-32): resolves with a port or rejects. -/
def getFreePort {σ : Type} (outcome : Except String Nat) : Js σ Nat :=
  fun s => (outcome, s)

/-- The statement `await new Promise((resolve) => setTimeout(resolve, ms))` (server.js
146): it always resolves and changes nothing. -/
def delay {σ : Type} (_ms : Nat) : Js σ Unit :=
  fun s => (.ok (), s)

/-- The function `generateUniqueId` (server.js 37-39). -/
def generateUniqueId (now : Nat) (draw : Fin 10000) : String :=
  toString now ++ toString draw.val

/-- The call `path.join(__dirname, file)` for a file name without separators. -/
def pathJoin (dirname file : String) : String :=
  if dirname = "/" then "/" ++ file else dirname ++ "/" ++ file

/-- The call `fs.writeFileSync(path, content)`. -/
def writeFileSync (outcome : Except String Unit) (path content : String) : Js World Unit :=
  fun w =>
    match outcome with
    | .ok _ =>
      (.ok (), { w with files := setKey w.files path (some content),
                        history := w.history ++ [Event.written path] })
    | .error e => (.error e, w)

/-- The call `fs.existsSync(path)`. -/
def existsSync (path : String) : Js World Bool :=
  fun w => (.ok (w.files path).isSome, w)

/-- The call `fs.unlinkSync(path)`. -/
def unlinkSync (path : String) : Js World Unit :=
  fun w =>
    (.ok (), { w with files := setKey w.files path none,
                      history := w.history ++ [Event.unlinked path] })

/-- The host written into the kubeconfig: `process.env.INSTANCE_IP || "YOUR_INSTANCE_IP"`
(server.js 46).  The operator `||` yields its right operand when the left one is
`undefined` or the empty string. -/
def instanceIP (env : Env) : String :=
  match env.INSTANCE_IP with
  | none => "YOUR_INSTANCE_IP"
  | some v => if v = "" then "YOUR_INSTANCE_IP" else v

/-- The template literal of `generateKubeConfig` (server.js 47-65). -/
def kubeconfigText (env : Env) (k3sPort : Nat) : String :=
  "\napiVersion: v1\nkind: Config\nclusters:\n- name: k3s\n  cluster:\n" ++
  "    server: https://" ++ instanceIP env ++ ":" ++ toString k3sPort ++ "\n" ++
  "    insecure-skip-tls-verify: true\n" ++
  "contexts:\n- name: k3s\n  context:\n    cluster: k3s\n    user: admin\n" ++
  "current-context: k3s\nusers:\n- name: admin\n  user:\n    token: admin-token\n  "

def kubeconfigPathOf (env : Env) (sessionId : String) : String :=
  pathJoin env.dirname ("kubeconfig-" ++ sessionId ++ ".yaml")

def lensConfigPathOf (env : Env) (sessionId : String) : String :=
  pathJoin env.dirname ("lens-config-" ++ sessionId ++ ".json")

/-- The function `generateKubeConfig` (server.js 45-70). -/
def generateKubeConfig (env : Env) (write : Except String Unit) (sessionId : String)
    (k3sPort : Nat) : Js World String := do
  let kubeconfig := kubeconfigText env k3sPort
  let kubeconfigPath := kubeconfigPathOf env sessionId
  writeFileSync write kubeconfigPath kubeconfig
  return kubeconfigPath

/-- The text `JSON.stringify(lensConfig, null, 2)` (server.js 76-92). -/
def lensConfigText : String :=
  "\x7b\n  \"preferences\": \x7b\n    \"theme\": \"dark\",\n    \"fontSize\": 12\n  \x7d,\n" ++
  "  \"clusters\": [\n    \x7b\n      \"name\": \"k3s\",\n" ++
  "      \"kubeconfig\": \"/kubeconfig.yaml\"\n    \x7d\n  ],\n" ++
  "  \"extensions\": [],\n  \"ts\": []\n\x7d"

/-- The function `generateLensConfig` (server.js 75-95). -/
def generateLensConfig (env : Env) (write : Except String Unit) (sessionId : String) :
    Js World String := do
  let lensConfigPath := lensConfigPathOf env sessionId
  writeFileSync write lensConfigPath lensConfigText
  return lensConfigPath

/-- The call `docker.createContainer({ name, HostConfig: { PortBindings, ... } })`: on
success the runtime knows a container of that name, not running, bound to `hostPort`. -/
def createContainer (outcome : Except String Unit) (name : String) (hostPort : Nat) :
    Js World String :=
  fun w =>
    match outcome with
    | .ok _ =>
      (.ok name,
        { w with containers :=
                   setKey w.containers name (some { running := false, hostPort := hostPort }),
                 history := w.history ++ [Event.created name] })
    | .error e => (.error e, w)

/-- A container with its running flag replaced. -/
def setRunning (c : Option Container) (b : Bool) : Option Container :=
  c.map fun x => { x with running := b }

/-- The call `container.start()`. -/
def containerStart (outcome : Except String Unit) (name : String) : Js World Unit :=
  fun w =>
    match outcome with
    | .ok _ =>
      (.ok (), { w with containers := setKey w.containers name (setRunning (w.containers name) true),
                        history := w.history ++ [Event.started name] })
    | .error e => (.error e, w)

/-- The call `container.stop()`. -/
def containerStop (outcome : Except String Unit) (name : String) : Js World Unit :=
  fun w =>
    match outcome with
    | .ok _ =>
      (.ok (), { w with containers := setKey w.containers name (setRunning (w.containers name) false),
                        history := w.history ++ [Event.stopped name] })
    | .error e => (.error e, w)

/-- The call `container.remove()`. -/
def containerRemove (outcome : Except String Unit) (name : String) : Js World Unit :=
  fun w =>
    match outcome with
    | .ok _ =>
      (.ok (), { w with containers := setKey w.containers name none,
                        history := w.history ++ [Event.removed name] })
    | .error e => (.error e, w)

/-- The calls `k3sContainer.exec(...)` and `exec.start(...)`: no effect on the state
modelled here. -/
def containerExec {σ : Type} (outcome : Except String Unit) : Js σ Unit :=
  fun s => (outcome, s)

def sessionsGet (sessionId : String) : Js World (Option Session) :=
  fun w => (.ok (w.sessions sessionId), w)

def sessionsSet (sessionId : String) (session : Session) : Js World Unit :=
  fun w => (.ok (), { w with sessions := setKey w.sessions sessionId (some session) })

def sessionsDelete (sessionId : String) : Js World Unit :=
  fun w => (.ok (), { w with sessions := setKey w.sessions sessionId none })

def wsSend (m : Msg) : Js Run Unit :=
  fun r => (.ok (), { r with ws := { r.ws with sent := r.ws.sent ++ [m] } })

/-- The registrations `stream.on("data", ...)` and `ws.on("message", ...)`. -/
def wsRelay : Js Run Unit :=
  fun r => (.ok (), { r with ws := { r.ws with relaying := true } })

/-- The registration `ws.on("close", ...)`; the listener closes over `sessionId`. -/
def wsOnClose (sessionId : String) : Js Run Unit :=
  fun r => (.ok (), { r with ws := { r.ws with closeListener := some sessionId } })

/-! ## The handlers -/

/-- The `close` listener (server.js 204-233). -/
def onClose (o : TeardownOutcomes) (sessionId : String) : Js World Unit := do
  let session ← sessionsGet sessionId
  match session with
  | none => return ()
  | some session =>
    try
      containerStop o.k3sStop session.k3sContainer
      containerRemove o.k3sRemove session.k3sContainer
    catch _ => pure ()
    try
      containerStop o.lensStop session.lensContainer
      containerRemove o.lensRemove session.lensContainer
    catch _ => pure ()
    if (← existsSync session.kubeconfigPath) then
      unlinkSync session.kubeconfigPath
    if (← existsSync session.lensConfigPath) then
      unlinkSync session.lensConfigPath
    sessionsDelete sessionId

/-- The call `ws.close()`: the connection is closed and the `close` event reaches the
listener registered on this socket, if there is one.  The listener is an `async`
function: what it throws does not reach the caller of `ws.close()`. -/
def wsClose (td : TeardownOutcomes) : Js Run Unit :=
  fun r =>
    match r.ws.closeListener with
    | none => (.ok (), { r with ws := { r.ws with closed := true } })
    | some sessionId =>
      (.ok (), { world := (onClose td sessionId r.world).2,
                 ws := { r.ws with closed := true } })

/-- The body of the `try` block of the connection handler (server.js 123-233). -/
def setupSession (env : Env) (o : SetupOutcomes) (sessionId : String) : Js Run Unit := do
  let k3sPort ← getFreePort o.k3sPort
  let k3sContainer ← onWorld (createContainer o.k3sCreate ("k3s-" ++ sessionId) k3sPort)
  onWorld (containerStart o.k3sStart k3sContainer)
  delay 5000
  let kubeconfigPath ← onWorld (generateKubeConfig env o.kubeconfigWrite sessionId k3sPort)
  let lensConfigPath ← onWorld (generateLensConfig env o.lensConfigWrite sessionId)
  let lensPort ← getFreePort o.lensPort
  let lensContainer ← onWorld (createContainer o.lensCreate ("lens-" ++ sessionId) lensPort)
  onWorld (containerStart o.lensStart lensContainer)
  onWorld (sessionsSet sessionId
    { k3sContainer := k3sContainer, lensContainer := lensContainer,
      kubeconfigPath := kubeconfigPath, lensConfigPath := lensConfigPath,
      lensPort := lensPort, k3sPort := k3sPort })
  wsSend (Msg.lens ("http://localhost:" ++ toString lensPort))
  containerExec o.exec
  containerExec o.execStart
  wsRelay
  wsOnClose sessionId

/-- The connection handler (server.js 119-239). -/
def connection (env : Env) (o : SetupOutcomes) (td : TeardownOutcomes) (now : Nat)
    (draw : Fin 10000) : Js Run Unit := do
  let sessionId := generateUniqueId now draw
  try
    setupSession env o sessionId
  catch error =>
    wsSend (Msg.error error)
    wsClose td

/-- The state left by one run of the connection handler on a new socket. -/
def handleConnection (env : Env) (o : SetupOutcomes) (td : TeardownOutcomes) (now : Nat)
    (draw : Fin 10000) (w : World) : Run :=
  (connection env o td now draw { world := w, ws := Socket.fresh }).2

/-- The end of the `close` listener (server.js 222-231): the two files are deleted when
they exist and the registry entry is removed. -/
def removeFilesAndEntry (session : Session) (sessionId : String) : Js World Unit := do
  if (← existsSync session.kubeconfigPath) then
    unlinkSync session.kubeconfigPath
  if (← existsSync session.lensConfigPath) then
    unlinkSync session.lensConfigPath
  sessionsDelete sessionId

/-- The state left by one run of the `close` listener. -/
def handleClose (o : TeardownOutcomes) (sessionId : String) (w : World) : World :=
  (onClose o sessionId w).2

/-- What the route gives to `res`: `res.status(404).json({ error })` or
`res.download(path)`. -/
inductive Response where
  | json (status : Nat) (error : String)
  | download (path : String)
deriving DecidableEq

/-- The route `GET /get-kubeconfig/:sessionId` (server.js 107-114). -/
def getKubeconfig (sessionId : String) : Js World Response := do
  let session ← sessionsGet sessionId
  match session with
  | none => return Response.json 404 "Kubeconfig not found for this session"
  | some session =>
    if !(← existsSync session.kubeconfigPath) then
      return Response.json 404 "Kubeconfig not found for this session"
    return Response.download session.kubeconfigPath

/-! ## Outcomes of a run -/

/-- The message of a failed call, `none` for a call that succeeded. -/
def failureOf {α : Type} (x : Except String α) : Option String :=
  match x with
  | .error e => some e
  | .ok _ => none

deriving instance DecidableEq for Except

/-- Every call of steps 2-8 succeeds; `p1` and `p2` are the two ports obtained. -/
def Provisions (o : SetupOutcomes) (p1 p2 : Nat) : Prop :=
  o.k3sPort = .ok p1 ∧ o.k3sCreate = .ok () ∧ o.k3sStart = .ok () ∧
  o.kubeconfigWrite = .ok () ∧ o.lensConfigWrite = .ok () ∧ o.lensPort = .ok p2 ∧
  o.lensCreate = .ok () ∧ o.lensStart = .ok ()

instance (o : SetupOutcomes) (p1 p2 : Nat) : Decidable (Provisions o p1 p2) := by
  unfold Provisions
  infer_instance

/-- The message of the first call of steps 2-8 that fails, in source order; `none` when
all of them succeed. -/
def provisioningFailure (o : SetupOutcomes) : Option String :=
  (failureOf o.k3sPort).or <| (failureOf o.k3sCreate).or <| (failureOf o.k3sStart).or <|
  (failureOf o.kubeconfigWrite).or <| (failureOf o.lensConfigWrite).or <|
  (failureOf o.lensPort).or <| (failureOf o.lensCreate).or (failureOf o.lensStart)

/-- The calls up to the creation of the control-plane container succeed. -/
def K3sCreated (o : SetupOutcomes) : Prop :=
  failureOf o.k3sPort = none ∧ failureOf o.k3sCreate = none

/-- The calls up to the writing of the kubeconfig succeed. -/
def KubeconfigWritten (o : SetupOutcomes) : Prop :=
  K3sCreated o ∧ failureOf o.k3sStart = none ∧ failureOf o.kubeconfigWrite = none

/-- The calls up to the writing of the Lens configuration succeed. -/
def LensConfigWritten (o : SetupOutcomes) : Prop :=
  KubeconfigWritten o ∧ failureOf o.lensConfigWrite = none

/-- The calls up to the creation of the Lens container succeed. -/
def LensCreated (o : SetupOutcomes) : Prop :=
  LensConfigWritten o ∧ failureOf o.lensPort = none ∧ failureOf o.lensCreate = none

instance (o : SetupOutcomes) : Decidable (K3sCreated o) := by
  unfold K3sCreated
  infer_instance

instance (o : SetupOutcomes) : Decidable (KubeconfigWritten o) := by
  unfold KubeconfigWritten
  infer_instance

instance (o : SetupOutcomes) : Decidable (LensConfigWritten o) := by
  unfold LensConfigWritten
  infer_instance

instance (o : SetupOutcomes) : Decidable (LensCreated o) := by
  unfold LensCreated
  infer_instance

/-- The message of the first attach call (`k3sContainer.exec`, `exec.start`) that
fails. -/
def attachFailure (o : SetupOutcomes) : Option String :=
  (failureOf o.exec).or (failureOf o.execStart)

/-- The session the connection handler stores for `sessionId` and the ports `p1`, `p2`. -/
def sessionOf (env : Env) (sessionId : String) (p1 p2 : Nat) : Session :=
  { k3sContainer := "k3s-" ++ sessionId, lensContainer := "lens-" ++ sessionId,
    kubeconfigPath := kubeconfigPathOf env sessionId,
    lensConfigPath := lensConfigPathOf env sessionId, lensPort := p2, k3sPort := p1 }

/-- Nothing of session `sessionId` is left: no container `k3s-<id>` or `lens-<id>`, no
file `kubeconfig-<id>.yaml` or `lens-config-<id>.json`, no registry entry. -/
def NothingLeft (env : Env) (sessionId : String) (w : World) : Prop :=
  w.containers ("k3s-" ++ sessionId) = none ∧ w.containers ("lens-" ++ sessionId) = none ∧
  w.files (kubeconfigPathOf env sessionId) = none ∧
  w.files (lensConfigPathOf env sessionId) = none ∧ w.sessions sessionId = none

instance (env : Env) (sessionId : String) (w : World) :
    Decidable (NothingLeft env sessionId w) := by
  unfold NothingLeft
  infer_instance

/-- The messages of type `"lens"` among those sent. -/
def lensMessages (sent : List Msg) : List Msg :=
  sent.filter fun m => match m with
    | Msg.lens _ => true
    | _ => false

/-- Both containers of `s` were created and started and both files of `s` were written,
at some point of the trace of `w`. -/
def Recorded (w : World) (s : Session) : Prop :=
  Event.created s.k3sContainer ∈ w.history ∧ Event.started s.k3sContainer ∈ w.history ∧
  Event.created s.lensContainer ∈ w.history ∧ Event.started s.lensContainer ∈ w.history ∧
  Event.written s.kubeconfigPath ∈ w.history ∧ Event.written s.lensConfigPath ∈ w.history

/-- Every registry entry is the record of its id's containers and files, all of them
created, started and written at some point of the trace. -/
def RegistryComplete (env : Env) (w : World) : Prop :=
  ∀ sessionId s, w.sessions sessionId = some s →
    Recorded w s ∧ s = sessionOf env sessionId s.k3sPort s.lensPort

/-- One run of a handler: a connection handler on a new socket, with any outcomes, clock
and draw, or a `close` listener for any session id, with any outcomes. -/
inductive Step (env : Env) : World → World → Prop where
  | connect (o : SetupOutcomes) (td : TeardownOutcomes) (now : Nat) (draw : Fin 10000)
      (w : World) : Step env w (handleConnection env o td now draw w).world
  | close (td : TeardownOutcomes) (sessionId : String) (w : World) :
      Step env w (handleClose td sessionId w)

/-- The states reached from the empty state by handler runs. -/
inductive Reachable (env : Env) : World → Prop where
  | start : Reachable env World.empty
  | step {w w1 : World} : Reachable env w → Step env w w1 → Reachable env w1

/-! ## Sample inputs -/

def sampleEnv : Env := { INSTANCE_IP := some "203.0.113.7", dirname := "/srv/k3s-backend" }

def allSucceed : SetupOutcomes :=
  { k3sPort := .ok 40001, k3sCreate := .ok (), k3sStart := .ok (), kubeconfigWrite := .ok (),
    lensConfigWrite := .ok (), lensPort := .ok 40002, lensCreate := .ok (),
    lensStart := .ok (), exec := .ok (), execStart := .ok () }

def teardownSucceeds : TeardownOutcomes :=
  { k3sStop := .ok (), k3sRemove := .ok (), lensStop := .ok (), lensRemove := .ok () }

/-- Step 5 fails: `fs.writeFileSync` throws while writing the kubeconfig. -/
def kubeconfigWriteFails : SetupOutcomes :=
  { allSucceed with kubeconfigWrite := .error "EACCES: permission denied" }

/-- Step 11 fails: `k3sContainer.exec` rejects. -/
def attachFails : SetupOutcomes :=
  { allSucceed with exec := .error "(HTTP code 409) container is not running" }

/-- A later connection for which the runtime refuses the container name. -/
def nameRefused : SetupOutcomes :=
  { allSucceed with k3sPort := .ok 40003, k3sCreate := .error "(HTTP code 409) Conflict" }

/-- A later connection for which every call succeeds, on two other ports. -/
def laterSucceeds : SetupOutcomes :=
  { allSucceed with k3sPort := .ok 40003, lensPort := .ok 40004 }

/-- The call `stop()` on the control-plane container fails. -/
def k3sStopFails : TeardownOutcomes :=
  { teardownSucceeds with k3sStop := .error "(HTTP code 304) container already stopped" }

/-- The state after one connection was served to the end of its handler at clock
1700000000000 with draw 1234. -/
def oneSession : World :=
  (handleConnection sampleEnv allSucceed teardownSucceeds 1700000000000 1234 World.empty).world

/-- The state `oneSession` after the control-plane container has exited on its own. -/
def exitedSession : World :=
  { oneSession with
    containers := setKey oneSession.containers "k3s-17000000000001234"
      (some { running := false, hostPort := 40001 }) }

/-- The state `oneSession` after both of its containers were removed outside the server,
so that their names are free again. -/
def staleSession : World :=
  { oneSession with containers := fun _ => none }

/-! ## Computation rules -/

section rules

variable {σ α β : Type}

@[simp] theorem run_pure (a : α) (s : σ) : (Pure.pure a : Js σ α) s = (.ok a, s) := rfl

@[simp] theorem run_bind (m : Js σ α) (f : α → Js σ β) (s : σ) :
    (m >>= f) s = Js.bind m f s := rfl

@[simp] theorem run_tryCatch (body : Js σ α) (handler : String → Js σ α) (s : σ) :
    (MonadExcept.tryCatch body handler) s = Js.tryCatch body handler s := rfl

end rules

attribute [simp] Js.bind Js.tryCatch Js.pure onWorld getFreePort delay writeFileSync existsSync
  unlinkSync createContainer containerStart containerStop containerRemove containerExec
  sessionsGet sessionsSet sessionsDelete wsSend wsRelay wsOnClose wsClose
  generateKubeConfig generateLensConfig failureOf

@[simp] theorem setKey_same {β : Type} (m : String → Option β) (k : String) (v : Option β) :
    setKey m k v k = v := by
  simp [setKey]

theorem setKey_other {β : Type} (m : String → Option β) (k x : String) (v : Option β)
    (h : x ≠ k) : setKey m k v x = m x := by
  simp [setKey, h]

theorem setKey_some_isSome {β : Type} (m : String → Option β) (k x : String) (v : β) :
    (setKey m k (some v) x).isSome = true ↔ x = k ∨ (m x).isSome = true := by
  unfold setKey
  split <;> simp [*]

theorem k3s_ne_lens (a b : String) : "k3s-" ++ a ≠ "lens-" ++ b := by
  intro h
  have h2 := congrArg String.data h
  simp at h2

theorem kubeconfigPath_ne_lensConfigPath (env : Env) (a b : String) :
    kubeconfigPathOf env a ≠ lensConfigPathOf env b := by
  unfold kubeconfigPathOf lensConfigPathOf pathJoin
  intro h
  split at h
  · have h2 := congrArg String.data h
    simp at h2
  · have h2 := congrArg String.data h
    simp at h2

/-! ## The credential route -/

/-- C10. The route answers with a download of the recorded kubeconfig path exactly when
the registry has an entry for the id and that file exists; otherwise it answers 404 with
the not-found error; it never throws and never changes the state. -/
theorem getKubeconfig_download_iff (sessionId : String) (w : World) :
    (∀ p, (getKubeconfig sessionId w).1 = .ok (Response.download p) ↔
        ∃ s, w.sessions sessionId = some s ∧ s.kubeconfigPath = p ∧
          (w.files s.kubeconfigPath).isSome = true) ∧
    ((¬ ∃ s, w.sessions sessionId = some s ∧ (w.files s.kubeconfigPath).isSome = true) →
        (getKubeconfig sessionId w).1 =
          .ok (Response.json 404 "Kubeconfig not found for this session")) ∧
    (getKubeconfig sessionId w).2 = w := by
  unfold getKubeconfig
  cases hs : w.sessions sessionId with
  | none => simp [Js.bind, sessionsGet, hs]
  | some s =>
    cases hf : (w.files s.kubeconfigPath).isSome <;>
      simp [Js.bind, sessionsGet, existsSync, hs, hf]

/-! ## The kubeconfig document -/

/-- C8, as stated, fails when `INSTANCE_IP` is set to the empty string: the variable is
present, yet the document written for session "10" and port 6443 carries the placeholder
`YOUR_INSTANCE_IP` and not the variable's value. -/
theorem kubeconfig_placeholder_although_present :
    ({ INSTANCE_IP := some "", dirname := "/srv" } : Env).INSTANCE_IP = some "" ∧
    instanceIP { INSTANCE_IP := some "", dirname := "/srv" } = "YOUR_INSTANCE_IP" ∧
    instanceIP { INSTANCE_IP := some "", dirname := "/srv" } ≠ "" ∧
    (generateKubeConfig { INSTANCE_IP := some "", dirname := "/srv" } (.ok ()) "10" 6443
        World.empty).2.files "/srv/kubeconfig-10.yaml" =
      some ("\napiVersion: v1\nkind: Config\nclusters:\n- name: k3s\n  cluster:\n" ++
        "    server: https://YOUR_INSTANCE_IP:6443\n" ++
        "    insecure-skip-tls-verify: true\n" ++
        "contexts:\n- name: k3s\n  context:\n    cluster: k3s\n    user: admin\n" ++
        "current-context: k3s\nusers:\n- name: admin\n  user:\n    token: admin-token\n  ") :=
  ⟨rfl, rfl, by decide, rfl⟩

/-- C8, amended. The document `generateKubeConfig` writes to `kubeconfig-<id>.yaml` has
the server line `https://<H>:<port>` followed by `insecure-skip-tls-verify: true`, between
two fixed texts; `<H>` is the value of `INSTANCE_IP` when the variable is set and not
empty, and the placeholder `YOUR_INSTANCE_IP` when it is unset or empty; two calls with
the same `<H>` and port write the same text, whatever the session ids. -/
theorem generateKubeConfig_server_address (env : Env) (sessionId : String) (port : Nat)
    (w : World) :
    (generateKubeConfig env (.ok ()) sessionId port w).1 = .ok (kubeconfigPathOf env sessionId) ∧
    (generateKubeConfig env (.ok ()) sessionId port w).2.files (kubeconfigPathOf env sessionId) =
      some (kubeconfigText env port) ∧
    kubeconfigText env port =
      "\napiVersion: v1\nkind: Config\nclusters:\n- name: k3s\n  cluster:\n" ++
      ("    server: https://" ++ instanceIP env ++ ":" ++ toString port ++ "\n" ++
       "    insecure-skip-tls-verify: true\n") ++
      ("contexts:\n- name: k3s\n  context:\n    cluster: k3s\n    user: admin\n" ++
       "current-context: k3s\nusers:\n- name: admin\n  user:\n    token: admin-token\n  ") ∧
    (∀ v, env.INSTANCE_IP = some v → v ≠ "" → instanceIP env = v) ∧
    (env.INSTANCE_IP = none ∨ env.INSTANCE_IP = some "" → instanceIP env = "YOUR_INSTANCE_IP") ∧
    (∀ (env2 : Env) (sessionId2 : String) (w2 : World), instanceIP env2 = instanceIP env →
      (generateKubeConfig env2 (.ok ()) sessionId2 port w2).2.files
          (kubeconfigPathOf env2 sessionId2) =
        (generateKubeConfig env (.ok ()) sessionId port w).2.files
          (kubeconfigPathOf env sessionId)) := by
  refine ⟨by simp, by simp, ?_, ?_, ?_, ?_⟩
  · simp only [kubeconfigText, String.append_assoc]
  · intro v hv hne
    simp [instanceIP, hv, hne]
  · rintro (h | h) <;> simp [instanceIP, h]
  · intro env2 sessionId2 w2 h
    simp [kubeconfigText, h]

/-! ## The connection handler -/

/-- The run of the connection handler when steps 2-8 succeed, field by field. -/
theorem handleConnection_provisions (env : Env) (o : SetupOutcomes) (td : TeardownOutcomes)
    (now : Nat) (draw : Fin 10000) (w : World) (p1 p2 : Nat) (h : Provisions o p1 p2) :
    (handleConnection env o td now draw w).world.sessions =
      setKey w.sessions (generateUniqueId now draw)
        (some (sessionOf env (generateUniqueId now draw) p1 p2)) ∧
    (handleConnection env o td now draw w).world.containers
        ("k3s-" ++ generateUniqueId now draw) = some { running := true, hostPort := p1 } ∧
    (handleConnection env o td now draw w).world.containers
        ("lens-" ++ generateUniqueId now draw) = some { running := true, hostPort := p2 } ∧
    (handleConnection env o td now draw w).world.files
        (kubeconfigPathOf env (generateUniqueId now draw)) = some (kubeconfigText env p1) ∧
    (handleConnection env o td now draw w).world.files
        (lensConfigPathOf env (generateUniqueId now draw)) = some lensConfigText ∧
    (handleConnection env o td now draw w).world.history = w.history ++
      [Event.created ("k3s-" ++ generateUniqueId now draw),
       Event.started ("k3s-" ++ generateUniqueId now draw),
       Event.written (kubeconfigPathOf env (generateUniqueId now draw)),
       Event.written (lensConfigPathOf env (generateUniqueId now draw)),
       Event.created ("lens-" ++ generateUniqueId now draw),
       Event.started ("lens-" ++ generateUniqueId now draw)] ∧
    (handleConnection env o td now draw w).ws =
      (match attachFailure o with
       | none =>
         { sent := [Msg.lens ("http://localhost:" ++ toString p2)], closed := false,
           closeListener := some (generateUniqueId now draw), relaying := true }
       | some e =>
         { sent := [Msg.lens ("http://localhost:" ++ toString p2), Msg.error e],
           closed := true, closeListener := none, relaying := false }) := by
  obtain ⟨h1, h2, h3, h4, h5, h6, h7, h8⟩ := h
  obtain ⟨a1, a2, a3, a4, a5, a6, a7, a8, a9, a10⟩ := o
  simp only at h1 h2 h3 h4 h5 h6 h7 h8
  subst h1 h2 h3 h4 h5 h6 h7 h8
  have hk := k3s_ne_lens (generateUniqueId now draw) (generateUniqueId now draw)
  have hp := kubeconfigPath_ne_lensConfigPath env (generateUniqueId now draw)
    (generateUniqueId now draw)
  rcases a9 with e9 | u9 <;> rcases a10 with e10 | u10 <;>
    simp only [handleConnection, connection, setupSession, run_bind, run_tryCatch, run_pure,
      Js.bind, Js.tryCatch, Js.pure, onWorld, getFreePort, delay, writeFileSync,
      createContainer, containerStart, containerExec, sessionsSet, wsSend, wsRelay, wsOnClose, wsClose,
      generateKubeConfig, generateLensConfig, Socket.fresh] <;>
    simp [attachFailure, sessionOf, setKey_other, hk, hp, setRunning]

/-- The run of the connection handler when a call of steps 2-8 fails. -/
theorem handleConnection_fails (env : Env) (o : SetupOutcomes) (td : TeardownOutcomes)
    (now : Nat) (draw : Fin 10000) (w : World) (e : String)
    (h : provisioningFailure o = some e) :
    (handleConnection env o td now draw w).ws =
      { sent := [Msg.error e], closed := true, closeListener := none, relaying := false } ∧
    (handleConnection env o td now draw w).world.sessions = w.sessions ∧
    (∃ evs, (handleConnection env o td now draw w).world.history = w.history ++ evs) ∧
    (∀ n, (w.containers n).isSome = true →
      ((handleConnection env o td now draw w).world.containers n).isSome = true) ∧
    (∀ p, (w.files p).isSome = true →
      ((handleConnection env o td now draw w).world.files p).isSome = true) ∧
    (K3sCreated o →
      ((handleConnection env o td now draw w).world.containers
        ("k3s-" ++ generateUniqueId now draw)).isSome = true) ∧
    (KubeconfigWritten o →
      ((handleConnection env o td now draw w).world.files
        (kubeconfigPathOf env (generateUniqueId now draw))).isSome = true) ∧
    (LensConfigWritten o →
      ((handleConnection env o td now draw w).world.files
        (lensConfigPathOf env (generateUniqueId now draw))).isSome = true) ∧
    (LensCreated o →
      ((handleConnection env o td now draw w).world.containers
        ("lens-" ++ generateUniqueId now draw)).isSome = true) := by
  obtain ⟨a1, a2, a3, a4, a5, a6, a7, a8, a9, a10⟩ := o
  simp only [provisioningFailure, LensCreated, LensConfigWritten, KubeconfigWritten,
    K3sCreated] at h ⊢
  rcases a1 with e1 | p1
  swap
  rcases a2 with e2 | u2
  swap
  rcases a3 with e3 | u3
  swap
  rcases a4 with e4 | u4
  swap
  rcases a5 with e5 | u5
  swap
  rcases a6 with e6 | p2
  swap
  rcases a7 with e7 | u7
  swap
  rcases a8 with e8 | u8
  swap
  all_goals simp at h
  all_goals
    simp only [handleConnection, connection, setupSession, run_bind, run_tryCatch, run_pure,
      Js.bind, Js.tryCatch, Js.pure, onWorld, getFreePort, delay, writeFileSync,
      createContainer, containerStart, containerExec, sessionsSet, wsSend, wsRelay, wsOnClose, wsClose,
      generateKubeConfig, generateLensConfig, Socket.fresh]
    simp +contextual [h, setKey_some_isSome, setRunning]

/-- C1, as stated, fails: when the kubeconfig cannot be written (step 5) after the
control-plane container was created and started, the error event is sent and the
connection closed while the container `k3s-<id>` still exists and runs. -/
theorem setup_failure_leaves_container :
    provisioningFailure kubeconfigWriteFails = some "EACCES: permission denied" ∧
    generateUniqueId 1700000000000 1234 = "17000000000001234" ∧
    (handleConnection sampleEnv kubeconfigWriteFails teardownSucceeds 1700000000000 1234
        World.empty).ws =
      { sent := [Msg.error "EACCES: permission denied"], closed := true,
        closeListener := none, relaying := false } ∧
    (handleConnection sampleEnv kubeconfigWriteFails teardownSucceeds 1700000000000 1234
        World.empty).world.containers "k3s-17000000000001234" =
      some { running := true, hostPort := 40001 } ∧
    ¬ NothingLeft sampleEnv "17000000000001234"
        (handleConnection sampleEnv kubeconfigWriteFails teardownSucceeds 1700000000000 1234
          World.empty).world := by
  refine ⟨by decide, by decide, by decide, by decide, ?_⟩
  intro h
  exact absurd h.1 (by decide)

/-- C1, amended. When a call of steps 2-8 fails after the calls before it succeeded, the
handler sends one error event carrying the failure's message and closes the connection;
the registry is as it was before the run, so it gains no entry for the id; nothing is
undone: every container and file present before the run is still present, and so are
the container `k3s-<id>`, the file `kubeconfig-<id>.yaml`, the file
`lens-config-<id>.json` and the container `lens-<id>` whenever the calls up to their
creation succeeded. -/
theorem setup_failure_reports_and_keeps (env : Env) (o : SetupOutcomes)
    (td : TeardownOutcomes) (now : Nat) (draw : Fin 10000) (w : World) (e : String)
    (h : provisioningFailure o = some e) :
    (handleConnection env o td now draw w).ws.sent = [Msg.error e] ∧
    (handleConnection env o td now draw w).ws.closed = true ∧
    (handleConnection env o td now draw w).world.sessions = w.sessions ∧
    (∀ n, (w.containers n).isSome = true →
      ((handleConnection env o td now draw w).world.containers n).isSome = true) ∧
    (∀ p, (w.files p).isSome = true →
      ((handleConnection env o td now draw w).world.files p).isSome = true) ∧
    (K3sCreated o →
      ((handleConnection env o td now draw w).world.containers
        ("k3s-" ++ generateUniqueId now draw)).isSome = true) ∧
    (KubeconfigWritten o →
      ((handleConnection env o td now draw w).world.files
        (kubeconfigPathOf env (generateUniqueId now draw))).isSome = true) ∧
    (LensConfigWritten o →
      ((handleConnection env o td now draw w).world.files
        (lensConfigPathOf env (generateUniqueId now draw))).isSome = true) ∧
    (LensCreated o →
      ((handleConnection env o td now draw w).world.containers
        ("lens-" ++ generateUniqueId now draw)).isSome = true) := by
  obtain ⟨h1, h2, -, h4, h5, h6, h7, h8, h9⟩ :=
    handleConnection_fails env o td now draw w e h
  exact ⟨by rw [h1], by rw [h1], h2, h4, h5, h6, h7, h8, h9⟩

/-- The amended C1 at step 5 failing on the empty state. -/
theorem setup_failure_reports_and_keeps_witness :
    provisioningFailure kubeconfigWriteFails = some "EACCES: permission denied" ∧
    (handleConnection sampleEnv kubeconfigWriteFails teardownSucceeds 1700000000000 1234
        World.empty).ws.sent = [Msg.error "EACCES: permission denied"] :=
  ⟨by decide,
   (setup_failure_reports_and_keeps sampleEnv kubeconfigWriteFails teardownSucceeds
      1700000000000 1234 World.empty "EACCES: permission denied" (by decide)).1⟩

/-- C4 at a failing attach step: every call of steps 2-8 succeeds and
`k3sContainer.exec` rejects.  The handler reports the error and closes the connection, no
`close` listener is registered, and the session stays in the registry with both
containers running and both files on disk. -/
theorem attach_failure_leaves_session :
    (handleConnection sampleEnv attachFails teardownSucceeds 1700000000000 1234
        World.empty).ws =
      { sent := [Msg.lens "http://localhost:40002",
                 Msg.error "(HTTP code 409) container is not running"],
        closed := true, closeListener := none, relaying := false } ∧
    (handleConnection sampleEnv attachFails teardownSucceeds 1700000000000 1234
        World.empty).world.sessions "17000000000001234" =
      some { k3sContainer := "k3s-17000000000001234",
             lensContainer := "lens-17000000000001234",
             kubeconfigPath := "/srv/k3s-backend/kubeconfig-17000000000001234.yaml",
             lensConfigPath := "/srv/k3s-backend/lens-config-17000000000001234.json",
             lensPort := 40002, k3sPort := 40001 } ∧
    (handleConnection sampleEnv attachFails teardownSucceeds 1700000000000 1234
        World.empty).world.containers "k3s-17000000000001234" =
      some { running := true, hostPort := 40001 } ∧
    (handleConnection sampleEnv attachFails teardownSucceeds 1700000000000 1234
        World.empty).world.containers "lens-17000000000001234" =
      some { running := true, hostPort := 40002 } ∧
    ((handleConnection sampleEnv attachFails teardownSucceeds 1700000000000 1234
        World.empty).world.files
          "/srv/k3s-backend/kubeconfig-17000000000001234.yaml").isSome = true ∧
    ((handleConnection sampleEnv attachFails teardownSucceeds 1700000000000 1234
        World.empty).world.files
          "/srv/k3s-backend/lens-config-17000000000001234.json").isSome = true := by
  refine ⟨by decide, by decide, by decide, by decide, by rfl, by rfl⟩

/-- C6 at a colliding id: session "17000000000001234" is in the registry and a connection
arrives at the same clock value with the same draw.  `generateUniqueId`, documented as
generating a unique identifier, returns that very id and the handler adopts it without
looking at the registry.  While the session's containers exist and the runtime refuses
the name, the run ends with the error event and no other id is tried; once the containers
were removed outside the server and every call succeeds, the entry still in the registry
is overwritten by the new session's. -/
theorem generated_id_collides :
    generateUniqueId 1700000000000 1234 = "17000000000001234" ∧
    oneSession.sessions "17000000000001234" =
      some (sessionOf sampleEnv "17000000000001234" 40001 40002) ∧
    (handleConnection sampleEnv nameRefused teardownSucceeds 1700000000000 1234
        oneSession).ws =
      { sent := [Msg.error "(HTTP code 409) Conflict"], closed := true,
        closeListener := none, relaying := false } ∧
    staleSession.sessions "17000000000001234" =
      some (sessionOf sampleEnv "17000000000001234" 40001 40002) ∧
    (handleConnection sampleEnv laterSucceeds teardownSucceeds 1700000000000 1234
        staleSession).ws.closeListener = some "17000000000001234" ∧
    (handleConnection sampleEnv laterSucceeds teardownSucceeds 1700000000000 1234
        staleSession).world.sessions "17000000000001234" =
      some (sessionOf sampleEnv "17000000000001234" 40003 40004) := by
  refine ⟨by decide, by decide, by decide, by decide, by decide, by decide⟩

/-- C9, as stated, fails: with `INSTANCE_IP` set to 203.0.113.7, the host written into
the generated kubeconfig, the one lens message of a successful run carries the url
`http://localhost:40002`, not `http://203.0.113.7:40002`. -/
theorem lens_url_ignores_instance_ip :
    instanceIP sampleEnv = "203.0.113.7" ∧
    (handleConnection sampleEnv allSucceed teardownSucceeds 1700000000000 1234
        World.empty).ws.sent = [Msg.lens "http://localhost:40002"] ∧
    (handleConnection sampleEnv allSucceed teardownSucceeds 1700000000000 1234
        World.empty).world.containers "lens-17000000000001234" =
      some { running := true, hostPort := 40002 } ∧
    lensMessages (handleConnection sampleEnv allSucceed teardownSucceeds 1700000000000 1234
        World.empty).ws.sent ≠
      [Msg.lens ("http://" ++ instanceIP sampleEnv ++ ":" ++ toString 40002)] := by
  refine ⟨by decide, by decide, by decide, by decide⟩

/-- C9, amended. For every run whose steps 2-8 succeed, exactly one message of type
`"lens"` is sent and its url is `http://localhost:<P2>`, whatever `INSTANCE_IP` is, where
`<P2>` is the port obtained for the Lens container: the host port of container
`lens-<id>` and the `lensPort` of the recorded session. -/
theorem lens_message_once_localhost (env : Env) (o : SetupOutcomes) (td : TeardownOutcomes)
    (now : Nat) (draw : Fin 10000) (w : World) (p1 p2 : Nat) (h : Provisions o p1 p2) :
    lensMessages (handleConnection env o td now draw w).ws.sent =
      [Msg.lens ("http://localhost:" ++ toString p2)] ∧
    (handleConnection env o td now draw w).world.containers
        ("lens-" ++ generateUniqueId now draw) = some { running := true, hostPort := p2 } ∧
    ((handleConnection env o td now draw w).world.sessions (generateUniqueId now draw)).map
        Session.lensPort = some p2 := by
  obtain ⟨h1, -, h3, -, -, -, h7⟩ := handleConnection_provisions env o td now draw w p1 p2 h
  refine ⟨?_, h3, ?_⟩
  · rw [h7]
    cases attachFailure o <;> simp [lensMessages]
  · rw [h1, setKey_same]
    rfl

/-- The amended C9 on the empty state with every call succeeding. -/
theorem lens_message_once_localhost_witness :
    Provisions allSucceed 40001 40002 ∧
    lensMessages (handleConnection sampleEnv allSucceed teardownSucceeds 1700000000000 1234
        World.empty).ws.sent = [Msg.lens ("http://localhost:" ++ toString 40002)] :=
  ⟨by decide,
   (lens_message_once_localhost sampleEnv allSucceed teardownSucceeds 1700000000000 1234
      World.empty 40001 40002 (by decide)).1⟩

/-! ## The close listener -/

/-- The `close` listener does nothing for an id that has no registry entry. -/
theorem onClose_absent (o : TeardownOutcomes) (sessionId : String) (w : World)
    (h : w.sessions sessionId = none) : onClose o sessionId w = (.ok (), w) := by
  simp only [onClose, run_bind, Js.bind, sessionsGet, h, run_pure]

/-- For an id that has a registry entry, the two `try` blocks of the `close` listener
end normally whatever the container calls do, and touch neither the registry nor the
files. -/
theorem onClose_try_blocks (o : TeardownOutcomes) (sessionId : String) (w : World)
    (s : Session) (h : w.sessions sessionId = some s) :
    ∃ w2 : World, w2.sessions = w.sessions ∧ w2.files = w.files ∧
      w.history <+: w2.history ∧
      onClose o sessionId w = removeFilesAndEntry s sessionId w2 := by
  obtain ⟨b1, b2, b3, b4⟩ := o
  rcases b1 with e1 | u1 <;> rcases b2 with e2 | u2 <;> rcases b3 with e3 | u3 <;>
    rcases b4 with e4 | u4 <;>
    simp only [onClose, removeFilesAndEntry, run_bind, run_tryCatch, run_pure, Js.bind, Js.tryCatch, Js.pure,
      sessionsGet, h, containerStop, containerRemove]
  all_goals
    refine ⟨_, ?_, ?_, ?_, rfl⟩
    · rfl
    · rfl
    · simp

/-- The end of the `close` listener deletes both files and the registry entry and ends
normally. -/
theorem removeFilesAndEntry_run (s : Session) (sessionId : String) (w : World) :
    (removeFilesAndEntry s sessionId w).1 = .ok () ∧
    (removeFilesAndEntry s sessionId w).2.sessions = setKey w.sessions sessionId none ∧
    (removeFilesAndEntry s sessionId w).2.containers = w.containers ∧
    (removeFilesAndEntry s sessionId w).2.files s.kubeconfigPath = none ∧
    (removeFilesAndEntry s sessionId w).2.files s.lensConfigPath = none ∧
    (∀ p, p ≠ s.kubeconfigPath → p ≠ s.lensConfigPath →
      (removeFilesAndEntry s sessionId w).2.files p = w.files p) ∧
    w.history <+: (removeFilesAndEntry s sessionId w).2.history := by
  by_cases heq : s.lensConfigPath = s.kubeconfigPath <;>
    cases hk : w.files s.kubeconfigPath <;> cases hl : w.files s.lensConfigPath <;>
    simp only [removeFilesAndEntry, run_bind, run_pure, Js.bind, Js.pure, existsSync,
      unlinkSync, sessionsDelete, hk, hl, Option.isSome_none, Option.isSome_some,
      Bool.false_eq_true, if_false, if_true, setKey, heq] <;>
    simp_all +contextual [setKey]

/-- C2 at a failing stop: session "17000000000001234" is in the registry and its
control-plane container has already exited, so `stop()` on it fails while every other call
would succeed.  After the `close` listener the container `k3s-17000000000001234` is still
there, because `remove()` was not issued for it, while the registry entry, the Lens
container and both files are gone; with all four calls succeeding the same listener
removes the container. -/
theorem close_keeps_container_when_stop_fails :
    exitedSession.sessions "17000000000001234" =
      some (sessionOf sampleEnv "17000000000001234" 40001 40002) ∧
    exitedSession.containers "k3s-17000000000001234" =
      some { running := false, hostPort := 40001 } ∧
    (handleClose k3sStopFails "17000000000001234" exitedSession).containers
        "k3s-17000000000001234" = some { running := false, hostPort := 40001 } ∧
    Event.removed "k3s-17000000000001234" ∉
      (handleClose k3sStopFails "17000000000001234" exitedSession).history ∧
    (handleClose k3sStopFails "17000000000001234" exitedSession).sessions
        "17000000000001234" = none ∧
    (handleClose k3sStopFails "17000000000001234" exitedSession).containers
        "lens-17000000000001234" = none ∧
    (handleClose k3sStopFails "17000000000001234" exitedSession).files
        "/srv/k3s-backend/kubeconfig-17000000000001234.yaml" = none ∧
    (handleClose k3sStopFails "17000000000001234" exitedSession).files
        "/srv/k3s-backend/lens-config-17000000000001234.json" = none ∧
    (handleClose teardownSucceeds "17000000000001234" exitedSession).containers
        "k3s-17000000000001234" = none := by
  refine ⟨by decide, by decide, by decide, by decide, by decide, by decide, by decide,
    by decide, by decide⟩

/-- C3. For a session in the registry and every outcome of the four container calls, the
`close` listener ends without an error, both files of the session are absent afterwards,
the session's registry entry is removed and the other entries are kept. -/
theorem close_deletes_files_and_entry (o : TeardownOutcomes) (sessionId : String)
    (w : World) (s : Session) (h : w.sessions sessionId = some s) :
    (onClose o sessionId w).1 = .ok () ∧
    (handleClose o sessionId w).files s.kubeconfigPath = none ∧
    (handleClose o sessionId w).files s.lensConfigPath = none ∧
    (handleClose o sessionId w).sessions sessionId = none ∧
    (∀ x, x ≠ sessionId → (handleClose o sessionId w).sessions x = w.sessions x) := by
  obtain ⟨w2, hs, -, -, heq⟩ := onClose_try_blocks o sessionId w s h
  obtain ⟨r1, r2, -, r4, r5, -, -⟩ := removeFilesAndEntry_run s sessionId w2
  unfold handleClose
  rw [heq]
  refine ⟨r1, r4, r5, ?_, ?_⟩
  · rw [r2, setKey_same]
  · intro x hx
    rw [r2, setKey_other _ _ _ _ hx, hs]

/-- C3 on the sample session, with the control-plane `stop()` failing. -/
theorem close_deletes_files_and_entry_witness :
    exitedSession.sessions "17000000000001234" =
      some (sessionOf sampleEnv "17000000000001234" 40001 40002) ∧
    (handleClose k3sStopFails "17000000000001234" exitedSession).sessions
        "17000000000001234" = none :=
  ⟨by decide,
   (close_deletes_files_and_entry k3sStopFails "17000000000001234" exitedSession
      (sessionOf sampleEnv "17000000000001234" 40001 40002) (by decide)).2.2.2.1⟩

/-- After the `close` listener the registry has no entry for the id. -/
theorem handleClose_entry_absent (o : TeardownOutcomes) (sessionId : String) (w : World) :
    (handleClose o sessionId w).sessions sessionId = none := by
  cases h : w.sessions sessionId with
  | none =>
    unfold handleClose
    rw [onClose_absent o sessionId w h]
    exact h
  | some s =>
    obtain ⟨w2, -, -, -, heq⟩ := onClose_try_blocks o sessionId w s h
    unfold handleClose
    rw [heq, (removeFilesAndEntry_run s sessionId w2).2.1, setKey_same]

/-- C5. Running the `close` listener a second time for the same id, whatever the outcomes
of the container calls of either run, leaves the state the first run produced and ends
without an error. -/
theorem close_twice_same_as_once (o1 o2 : TeardownOutcomes) (sessionId : String)
    (w : World) :
    handleClose o2 sessionId (handleClose o1 sessionId w) = handleClose o1 sessionId w ∧
    (onClose o2 sessionId (handleClose o1 sessionId w)).1 = .ok () := by
  have h := onClose_absent o2 sessionId (handleClose o1 sessionId w)
    (handleClose_entry_absent o1 sessionId w)
  constructor
  · show (onClose o2 sessionId (handleClose o1 sessionId w)).2 = _
    rw [h]
  · rw [h]

/-! ## The registry invariant -/

theorem Recorded.mono {w w1 : World} {s : Session} (h : Recorded w s)
    (hsub : ∀ ev, ev ∈ w.history → ev ∈ w1.history) : Recorded w1 s :=
  ⟨hsub _ h.1, hsub _ h.2.1, hsub _ h.2.2.1, hsub _ h.2.2.2.1, hsub _ h.2.2.2.2.1,
    hsub _ h.2.2.2.2.2⟩

theorem provisions_of_no_failure (o : SetupOutcomes) (h : provisioningFailure o = none) :
    ∃ p1 p2, Provisions o p1 p2 := by
  obtain ⟨a1, a2, a3, a4, a5, a6, a7, a8, a9, a10⟩ := o
  simp only [provisioningFailure] at h
  rcases a1 with e1 | p1 <;> rcases a2 with e2 | u2 <;> rcases a3 with e3 | u3 <;>
    rcases a4 with e4 | u4 <;> rcases a5 with e5 | u5 <;> rcases a6 with e6 | p2 <;>
    rcases a7 with e7 | u7 <;> rcases a8 with e8 | u8 <;> simp at h
  exact ⟨p1, p2, rfl, rfl, rfl, rfl, rfl, rfl, rfl, rfl⟩

theorem RegistryComplete.connection {env : Env} {w : World} (hw : RegistryComplete env w)
    (o : SetupOutcomes) (td : TeardownOutcomes) (now : Nat) (draw : Fin 10000) :
    RegistryComplete env (handleConnection env o td now draw w).world := by
  intro x s hx
  cases hf : provisioningFailure o with
  | some e =>
    obtain ⟨-, h2, ⟨evs, h3⟩, -⟩ := handleConnection_fails env o td now draw w e hf
    rw [h2] at hx
    refine ⟨(hw x s hx).1.mono ?_, (hw x s hx).2⟩
    intro ev hev
    rw [h3]
    exact List.mem_append_left _ hev
  | none =>
    obtain ⟨p1, p2, hp⟩ := provisions_of_no_failure o hf
    obtain ⟨h1, -, -, -, -, h6, -⟩ := handleConnection_provisions env o td now draw w p1 p2 hp
    rw [h1] at hx
    by_cases hxe : x = generateUniqueId now draw
    · subst hxe
      rw [setKey_same] at hx
      cases hx
      refine ⟨?_, rfl⟩
      simp [Recorded, h6, sessionOf]
    · rw [setKey_other _ _ _ _ hxe] at hx
      refine ⟨(hw x s hx).1.mono ?_, (hw x s hx).2⟩
      intro ev hev
      rw [h6]
      exact List.mem_append_left _ hev

theorem RegistryComplete.close {env : Env} {w : World} (hw : RegistryComplete env w)
    (td : TeardownOutcomes) (sessionId : String) :
    RegistryComplete env (handleClose td sessionId w) := by
  intro x s hx
  cases h : w.sessions sessionId with
  | none =>
    unfold handleClose at hx ⊢
    rw [onClose_absent td sessionId w h] at hx ⊢
    exact hw x s hx
  | some s0 =>
    obtain ⟨w2, hs, -, hh, heq⟩ := onClose_try_blocks td sessionId w s0 h
    obtain ⟨-, r2, -, -, -, -, r7⟩ := removeFilesAndEntry_run s0 sessionId w2
    unfold handleClose at hx ⊢
    rw [heq] at hx ⊢
    rw [r2] at hx
    by_cases hxe : x = sessionId
    · subst hxe
      rw [setKey_same] at hx
      cases hx
    · rw [setKey_other _ _ _ _ hxe, hs] at hx
      refine ⟨(hw x s hx).1.mono ?_, (hw x s hx).2⟩
      intro ev hev
      exact r7.subset (hh.subset hev)

theorem Reachable.registryComplete {env : Env} {w : World} (hr : Reachable env w) :
    RegistryComplete env w := by
  induction hr with
  | start =>
    intro x s hx
    cases hx
  | step _ hstep ih =>
    cases hstep with
    | connect o td now draw w0 => exact ih.connection o td now draw
    | close td x w0 => exact ih.close td x

/-- C7. In every state reached from the empty state by runs of the connection handler,
with any outcomes, and of the `close` listener, with any id and outcomes, every registry
entry belongs to a session whose two containers were both created and started and whose
two files were both written, and names exactly those containers and files. -/
theorem registry_entries_fully_provisioned (env : Env) (w : World) (hr : Reachable env w)
    (sessionId : String) (s : Session) (h : w.sessions sessionId = some s) :
    Recorded w s ∧ s = sessionOf env sessionId s.k3sPort s.lensPort :=
  hr.registryComplete sessionId s h

/-- C7 on the state reached by one connection served to the end of its handler. -/
theorem registry_entries_fully_provisioned_witness :
    Reachable sampleEnv oneSession ∧
    oneSession.sessions "17000000000001234" =
      some (sessionOf sampleEnv "17000000000001234" 40001 40002) ∧
    Recorded oneSession (sessionOf sampleEnv "17000000000001234" 40001 40002) :=
  ⟨Reachable.step Reachable.start
      (Step.connect allSucceed teardownSucceeds 1700000000000 1234 World.empty),
   by decide,
   (registry_entries_fully_provisioned sampleEnv oneSession
      (Reachable.step Reachable.start
        (Step.connect allSucceed teardownSucceeds 1700000000000 1234 World.empty))
      "17000000000001234" (sessionOf sampleEnv "17000000000001234" 40001 40002)
      (by decide)).1⟩

end K3sVcluster
